import Mathlib

/-!
Verification of the travel-planner workflow in
src/langGraph/simple_travel_planner_langgraph.ipynb.

The notebook defines a record state (PlannerState), three step functions
(input_city, input_interests, create_itinerary), a straight-chain workflow
over them, and a runner (run_travel_planner).  The step functions are
embedded below directly from the notebook code; their effectful inputs (the
line read from the console, the response of the text-generation service)
become explicit function parameters.  The graph executor itself is library
code not present in the repository, so it is modelled from the spec where
indicated.
-/

/-- Embeds langchain HumanMessage / AIMessage: a conversation turn tagged
as user-originated or assistant-originated. -/
inductive Message where
  | human : String → Message
  | ai : String → Message
deriving DecidableEq

/-- Embeds the notebook class PlannerState (a TypedDict with fields
messages, city, interests, itinerary). -/
structure PlannerState where
  messages : List Message
  city : String
  interests : List String
  itinerary : String
deriving DecidableEq

/-- A message of the prompt sent to the text-generation service: a role
tag together with the text. -/
structure PromptMessage where
  role : String
  content : String
deriving DecidableEq

/-- Embeds itinerary_prompt.format_messages(city=..., interests=...): the
two-message chat prompt of the notebook with the placeholders substituted. -/
def itinerary_prompt_format_messages (city interests : String) : List PromptMessage :=
  [ ⟨"system", "You are a helpful travel assistant. Create a day trip itinerary for " ++ city ++
      " based on the user\x27s interests: " ++ interests ++ ". Provide a brief, bulleted itinerary."⟩,
    ⟨"human", "Create an itinerary for my day trip."⟩ ]

/-- Helper for py_split_commas: accumulates the current token while
scanning the character list, starting a new token at each comma. -/
def split_commas_aux : List Char → List Char → List (List Char)
  | [], acc => [acc.reverse]
  | c :: cs, acc =>
      if c = ',' then acc.reverse :: split_commas_aux cs []
      else split_commas_aux cs (c :: acc)

/-- Embeds Python user_message.split(sep) with the one-character separator
used by the notebook, sep = the comma: on the empty string it yields the
one-element list holding the empty string, and it never drops or collapses
empty tokens. -/
def py_split_commas (s : String) : List String :=
  (split_commas_aux s.data []).map (fun cs => String.mk cs)

/-- The whitespace characters removed by Python str.strip() on ASCII text. -/
def py_is_space (c : Char) : Bool :=
  c = ' ' || c = '\t' || c = '\n' || c = '\r' || c = '\x0B' || c = '\x0C'

/-- Embeds Python interest.strip(): removes leading and trailing
whitespace. -/
def py_strip (s : String) : String :=
  String.mk (((s.data.dropWhile py_is_space).reverse.dropWhile py_is_space).reverse)

/-- Embeds the notebook function input_city.  The line returned by
input("Your input: ") is the parameter user_message; the dict literal
with **state spread becomes a structure update. -/
def input_city (user_message : String) (state : PlannerState) : PlannerState :=
  { state with
    city := user_message,
    messages := state.messages ++ [Message.human user_message] }

/-- Embeds the notebook function input_interests: splits the read line on
commas, strips each token, stores the token list in interests and appends
the raw line as a user message. -/
def input_interests (user_message : String) (state : PlannerState) : PlannerState :=
  { state with
    interests := (py_split_commas user_message).map py_strip,
    messages := state.messages ++ [Message.human user_message] }

/-- Embeds the notebook function create_itinerary.  The external
text-generation service llm.invoke becomes the parameter llm, a function
from the formatted prompt to the response content. -/
def create_itinerary (llm : List PromptMessage → String) (state : PlannerState) : PlannerState :=
  let response := llm (itinerary_prompt_format_messages state.city
    (String.intercalate ", " state.interests))
  { state with
    messages := state.messages ++ [Message.ai response],
    itinerary := response }

/-- Modelled from the spec: the workflow executor (the StateGraph of the
orchestration library, whose code is not part of this repository).  It
holds a table of named steps, the declared connections (each step name
paired with its successor, possibly the terminal marker), and the
designated entry step. -/
structure StateGraph (S : Type) where
  nodes : List (String × (S → S))
  edges : List (String × String)
  entry : Option String

/-- Modelled from the spec: the terminal marker ending execution. -/
def END_MARK : String := "__end__"

/-- An executor with no steps, no connections and no entry step. -/
def StateGraph.empty (S : Type) : StateGraph S := ⟨[], [], none⟩

/-- Modelled from the spec: register(name, stepFunction) adds a named step
to the step table and fails with a configuration error if the name is
already registered. -/
def StateGraph.add_node {S : Type} (g : StateGraph S) (name : String) (f : S → S) :
    Except String (StateGraph S) :=
  if (g.nodes.map Prod.fst).contains name then
    Except.error ("configuration error: node " ++ name ++ " already registered")
  else
    Except.ok { g with nodes := g.nodes ++ [(name, f)] }

/-- Modelled from the spec: setEntry(name) designates the first step to
run and fails with a configuration error if the name is not registered. -/
def StateGraph.set_entry_point {S : Type} (g : StateGraph S) (name : String) :
    Except String (StateGraph S) :=
  if (g.nodes.map Prod.fst).contains name then
    Except.ok { g with entry := some name }
  else
    Except.error ("configuration error: entry step " ++ name ++ " not registered")

/-- Modelled from the spec: connect(fromName, toName) declares the
successor of a step; the target may be the terminal marker; either name
unregistered (other than the terminal marker as target) is a
configuration error. -/
def StateGraph.add_edge {S : Type} (g : StateGraph S) (src dst : String) :
    Except String (StateGraph S) :=
  if (g.nodes.map Prod.fst).contains src &&
      (dst == END_MARK || (g.nodes.map Prod.fst).contains dst) then
    Except.ok { g with edges := g.edges ++ [(src, dst)] }
  else
    Except.error ("configuration error: edge between unregistered steps")

/-- Modelled from the spec: compile() validates that the entry step is set
and that every registered step has exactly one outgoing connection,
failing with a configuration error otherwise. -/
def StateGraph.compile {S : Type} (g : StateGraph S) : Except String (StateGraph S) :=
  match g.entry with
  | none => Except.error "configuration error: no entry step set"
  | some _ =>
      if g.nodes.all (fun p => (g.edges.filter (fun e => e.1 == p.1)).length == 1) then
        Except.ok g
      else
        Except.error "configuration error: a step lacks exactly one outgoing connection"

/-- The function registered under a name, when present. -/
def StateGraph.step_fn {S : Type} (g : StateGraph S) (name : String) : Option (S → S) :=
  (g.nodes.find? (fun p => p.1 == name)).map Prod.snd

/-- The declared successor of a step, when present. -/
def StateGraph.successor {S : Type} (g : StateGraph S) (name : String) : Option String :=
  (g.edges.find? (fun e => e.1 == name)).map Prod.snd

/-- Modelled from the spec: the execution loop of run(initialState) —
repeatedly invoke the current step on the current state and advance to the
connected next step, stopping at the terminal marker.  The fuel argument
bounds the number of iterations so the loop is total; run supplies enough
fuel for every step to fire once plus the terminal check. -/
def StateGraph.runFrom {S : Type} (g : StateGraph S) : Nat → String → S → Option S
  | 0, _, _ => none
  | fuel + 1, current, s =>
      if current == END_MARK then some s
      else
        match g.step_fn current, g.successor current with
        | some f, some next => g.runFrom fuel next (f s)
        | _, _ => none

/-- Modelled from the spec: run(initialState) starts at the entry step and
returns the state held when the terminal marker is reached. -/
def StateGraph.run {S : Type} (g : StateGraph S) (s : S) : Option S :=
  match g.entry with
  | none => none
  | some e => g.runFrom (g.nodes.length + 1) e s

/-- Embeds the notebook cell that builds the workflow: the three add_node
calls, set_entry_point, and the three add_edge calls, in the order of the
source.  The console lines and the service response function are
parameters, closed over by the registered step functions. -/
def workflow (line1 line2 : String) (llm : List PromptMessage → String) :
    Except String (StateGraph PlannerState) := do
  let g := StateGraph.empty PlannerState
  let g ← g.add_node "input_city" (input_city line1)
  let g ← g.add_node "input_interests" (input_interests line2)
  let g ← g.add_node "create_itinerary" (create_itinerary llm)
  let g ← g.set_entry_point "input_city"
  let g ← g.add_edge "input_city" "input_interests"
  let g ← g.add_edge "input_interests" "create_itinerary"
  let g ← g.add_edge "create_itinerary" END_MARK
  Except.ok g

/-- Embeds app = workflow.compile(). -/
def app (line1 line2 : String) (llm : List PromptMessage → String) :
    Except String (StateGraph PlannerState) :=
  (workflow line1 line2 llm).bind StateGraph.compile

/-- Running the compiled workflow on an initial state; none when
construction or compilation failed or execution did not terminate. -/
def app_run (line1 line2 : String) (llm : List PromptMessage → String)
    (s : PlannerState) : Option PlannerState :=
  match app line1 line2 llm with
  | Except.error _ => none
  | Except.ok g => g.run s

/-- Embeds run_travel_planner(user_request): builds the initial state with
the request as the single message and empty city, interests and itinerary,
then drives the compiled workflow over it. -/
def run_travel_planner (line1 line2 : String) (llm : List PromptMessage → String)
    (user_request : String) : Option PlannerState :=
  app_run line1 line2 llm ⟨[Message.human user_request], "", [], ""⟩

/-- Embeds the environment-setup cell: os.environ["OPENAI_API_KEY"] =
os.getenv("OPENAI_API_KEY").  When the key is absent os.getenv returns
None and the assignment raises a TypeError at once, modelled as the error
branch; otherwise the environment maps the key to the retrieved value. -/
def os_environ_set_openai_api_key (env : String → Option String) :
    Except String (String → Option String) :=
  match env "OPENAI_API_KEY" with
  | none => Except.error "TypeError: str expected, not NoneType"
  | some v => Except.ok (fun k => if k = "OPENAI_API_KEY" then some v else env k)

/-- The notebook executed top to bottom: the environment-setup cell runs
first; only when it succeeds do the workflow cells and
run_travel_planner execute. -/
def notebook_program (env : String → Option String) (line1 line2 : String)
    (llm : List PromptMessage → String) (user_request : String) :
    Except String (Option PlannerState) :=
  match os_environ_set_openai_api_key env with
  | Except.error e => Except.error e
  | Except.ok _ => Except.ok (run_travel_planner line1 line2 llm user_request)

/-- A sample initial state: the one run_travel_planner builds for the
request of the use-case cell. -/
def sample_state : PlannerState :=
  ⟨[Message.human "I want to plan a day trip."], "", [], ""⟩

/-- C1: running the compiled workflow from any initial state equals the
sequential composition input_city, then input_interests, then
create_itinerary, the state returned when the terminal marker is reached
being the final result. -/
theorem app_run_eq_sequential_composition (line1 line2 : String)
    (llm : List PromptMessage → String) (s : PlannerState) :
    app_run line1 line2 llm s
      = some (create_itinerary llm (input_interests line2 (input_city line1 s))) := rfl

/-- C2: for the input line "food, wine, art" the interests step yields
exactly the tokens food, wine, art (split on commas, whitespace stripped
per token), and for every line the raw line is appended as a user
message. -/
theorem input_interests_splits_and_strips (s : PlannerState) :
    (input_interests "food, wine, art" s).interests = ["food", "wine", "art"] ∧
    ∀ (line : String) (t : PlannerState),
      (input_interests line t).messages = t.messages ++ [Message.human line] :=
  ⟨rfl, fun _ _ => rfl⟩

/-- C3: from an initial state with exactly one message, the full
three-step chain ends with messages of length initial + 3, the three new
entries appended after the initial ones. -/
theorem full_chain_appends_three (line1 line2 : String)
    (llm : List PromptMessage → String) (s : PlannerState)
    (h : s.messages.length = 1) :
    (create_itinerary llm (input_interests line2 (input_city line1 s))).messages.length
      = s.messages.length + 3 ∧
    ∃ m1 m2 m3,
      (create_itinerary llm (input_interests line2 (input_city line1 s))).messages
        = s.messages ++ [m1, m2, m3] := by
  constructor
  · simp [create_itinerary, input_interests, input_city]
  · refine ⟨Message.human line1, Message.human line2,
      Message.ai (llm (itinerary_prompt_format_messages line1
        (String.intercalate ", " ((py_split_commas line2).map py_strip)))), ?_⟩
    simp [create_itinerary, input_interests, input_city]

/-- C3 witness: the chain run at a concrete one-message state. -/
theorem full_chain_appends_three_witness :
    sample_state.messages.length = 1 ∧
    ((create_itinerary (fun _ => "it") (input_interests "food"
        (input_city "paris" sample_state))).messages.length
      = sample_state.messages.length + 3 ∧
    ∃ m1 m2 m3,
      (create_itinerary (fun _ => "it") (input_interests "food"
          (input_city "paris" sample_state))).messages
        = sample_state.messages ++ [m1, m2, m3]) :=
  ⟨rfl, full_chain_appends_three "paris" "food" (fun _ => "it") sample_state rfl⟩

/-- C4: the city step stores the read line in city unchanged and appends
it as a user message; in particular the line "paris" yields city =
"paris". -/
theorem input_city_sets_city_exactly (line : String) (s : PlannerState) :
    (input_city line s).city = line ∧
    (input_city line s).messages = s.messages ++ [Message.human line] ∧
    (input_city "paris" s).city = "paris" :=
  ⟨rfl, rfl, rfl⟩

/-- C5: the empty input line yields interests = [""], the single empty
token, neither rejected nor collapsed. -/
theorem input_interests_empty_line_single_empty_token (s : PlannerState) :
    (input_interests "" s).interests = [""] := rfl

/-- C6: the workflow is deterministic — two runs from equal initial
states, with the same input lines and the same service response function,
produce identical final states. -/
theorem app_run_deterministic (line1 line2 : String)
    (llm : List PromptMessage → String) (s1 s2 : PlannerState) (h : s1 = s2) :
    app_run line1 line2 llm s1 = app_run line1 line2 llm s2 := by rw [h]

/-- C6 witness: determinism at a concrete state and concrete inputs. -/
theorem app_run_deterministic_witness :
    sample_state = sample_state ∧
    app_run "paris" "food" (fun _ => "it") sample_state
      = app_run "paris" "food" (fun _ => "it") sample_state :=
  ⟨rfl, app_run_deterministic "paris" "food" (fun _ => "it") sample_state sample_state rfl⟩

/-- C7 counterexample: with the empty string as the city input line, the
city field starts empty and is still empty in the final state of the run,
so it never transitions to a populated value as the claim states. -/
theorem city_stays_empty_on_empty_input :
    sample_state.city = "" ∧
    (run_travel_planner "" "food" (fun _ => "itinerary text")
        "I want to plan a day trip.").map PlannerState.city = some "" :=
  ⟨rfl, rfl⟩

/-- C7 amended: across the chain, messages is append-only and strictly
grows (each step appends exactly one entry at the end, preserving the
earlier ones and their order), and each of city, interests and itinerary
is written exactly once by its designated step — set to the supplied line,
token list or response, which is the empty value exactly when that input
is empty — and is never reset by any later step. -/
theorem messages_append_only_fields_set_once (line1 line2 : String)
    (llm : List PromptMessage → String) (s : PlannerState) :
    (input_city line1 s).messages = s.messages ++ [Message.human line1] ∧
    (input_interests line2 (input_city line1 s)).messages
      = (input_city line1 s).messages ++ [Message.human line2] ∧
    (create_itinerary llm (input_interests line2 (input_city line1 s))).messages
      = (input_interests line2 (input_city line1 s)).messages
        ++ [Message.ai ((create_itinerary llm
              (input_interests line2 (input_city line1 s))).itinerary)] ∧
    (input_city line1 s).city = line1 ∧
    (input_interests line2 (input_city line1 s)).city = (input_city line1 s).city ∧
    (create_itinerary llm (input_interests line2 (input_city line1 s))).city
      = (input_interests line2 (input_city line1 s)).city ∧
    (input_interests line2 (input_city line1 s)).interests
      = (py_split_commas line2).map py_strip ∧
    (create_itinerary llm (input_interests line2 (input_city line1 s))).interests
      = (input_interests line2 (input_city line1 s)).interests :=
  ⟨rfl, rfl, rfl, rfl, rfl, rfl, rfl, rfl⟩

/-- C8: registering a second step under an already-registered name fails
with a configuration error, at configuration time — the error is returned
by the registration call itself, before any run. -/
theorem add_node_duplicate_fails {S : Type} (g g1 : StateGraph S) (n : String)
    (f f1 : S → S) (h : g.add_node n f = Except.ok g1) :
    g1.add_node n f1
      = Except.error ("configuration error: node " ++ n ++ " already registered") := by
  unfold StateGraph.add_node at h ⊢
  by_cases hc : (g.nodes.map Prod.fst).contains n
  · rw [if_pos hc] at h
    cases h
  · rw [if_neg (by simpa using hc)] at h
    have hg : g1 = { g with nodes := g.nodes ++ [(n, f)] } := by
      cases h; rfl
    subst hg
    have hmem : (((g.nodes ++ [(n, f)]).map Prod.fst).contains n) = true := by simp
    rw [if_pos hmem]

/-- C8 witness: registering input_city twice on a concrete graph. -/
theorem add_node_duplicate_fails_witness :
    (StateGraph.empty PlannerState).add_node "input_city" (input_city "paris")
      = Except.ok (StateGraph.mk [("input_city", input_city "paris")] [] none) ∧
    (StateGraph.mk [("input_city", input_city "paris")] [] none :
        StateGraph PlannerState).add_node "input_city" (input_city "berlin")
      = Except.error ("configuration error: node " ++ "input_city" ++ " already registered") :=
  ⟨rfl, add_node_duplicate_fails (StateGraph.empty PlannerState)
    (StateGraph.mk [("input_city", input_city "paris")] [] none) "input_city"
    (input_city "paris") (input_city "berlin") rfl⟩

/-- C9: when the service API key is absent from the process environment,
the program fails at the environment-setup cell, before the workflow (and
in particular the text-generation step) executes. -/
theorem missing_api_key_fails_fast (env : String → Option String)
    (line1 line2 : String) (llm : List PromptMessage → String)
    (user_request : String) (h : env "OPENAI_API_KEY" = none) :
    notebook_program env line1 line2 llm user_request
      = Except.error "TypeError: str expected, not NoneType" := by
  unfold notebook_program os_environ_set_openai_api_key
  rw [h]

/-- C9 witness: the empty environment at concrete inputs. -/
theorem missing_api_key_fails_fast_witness :
    (fun _ : String => (none : Option String)) "OPENAI_API_KEY" = none ∧
    notebook_program (fun _ => none) "paris" "food" (fun _ => "it")
        "I want to plan a day trip."
      = Except.error "TypeError: str expected, not NoneType" :=
  ⟨rfl, missing_api_key_fails_fast _ _ _ _ _ rfl⟩

/-- C10: each step leaves the fields of the other steps unchanged —
input_city preserves interests and itinerary, input_interests preserves
city and itinerary, create_itinerary preserves city and interests — and
after create_itinerary the itinerary field equals the content of the
assistant message it appends (its last message). -/
theorem steps_frame_conditions (line : String)
    (llm : List PromptMessage → String) (s : PlannerState) :
    (input_city line s).interests = s.interests ∧
    (input_city line s).itinerary = s.itinerary ∧
    (input_interests line s).city = s.city ∧
    (input_interests line s).itinerary = s.itinerary ∧
    (create_itinerary llm s).city = s.city ∧
    (create_itinerary llm s).interests = s.interests ∧
    (create_itinerary llm s).messages.getLast?
      = some (Message.ai ((create_itinerary llm s).itinerary)) := by
  refine ⟨rfl, rfl, rfl, rfl, rfl, rfl, ?_⟩
  simp [create_itinerary]
